import Mathlib

/-!
Verification of the x402-gated payment gateway.

This file shallowly embeds the payment-confirmation protocol and
tool-dispatch logic of the gateway:

* the confirmation broker of `src/agent.ts` (the `confirmations` record of
  `CircularPayAgent`, its `confirm` / `cancel` message handling and the
  60-second timeout callback of `onPaymentRequired`);
* the WebSocket message dispatcher `CircularPayAgent.onMessage`;
* the backend client `CircularClient.checkWallet` and the `check_wallet`
  tool handler of `src/mcp-server.ts`;
* the tool registry declared in `src/mcp-server.ts` and the static pricing
  listing served by `src/index.ts`;
* the x402 payment gate, which lives in the external `agents/x402`
  dependency and is therefore modelled from the specification.

External effects (WebSocket frames, JSON parsing, promise resolution, HTTP
fetch, the x402 client) are represented by explicit data: the broker state
records which confirmation ids hold a live resolver and which resolutions
have fired, message handling is a pure function from the parse outcome of a
frame to a successor state and the list of replies sent on the connection,
and backend calls take the fetch outcome as input.
-/

namespace X402Gated

/-! ## Confirmation broker (`src/agent.ts`)

`pending` holds the confirmation ids that currently map to a resolver in
`this.confirmations` (a JavaScript record, so ids are unique keys), in the
order the keys were inserted.  `outcomes` records, in order, every
resolution that actually fired: the pair `(id, b)` means the promise stored
under `id` was settled with the boolean `b`. -/
structure BrokerState where
  pending : List String
  outcomes : List (String × Bool)
deriving DecidableEq

/-- The id generation of `onPaymentRequired`:
`crypto.randomUUID().slice(0, 8)` takes the first 8 characters of the
randomly drawn UUID string. -/
def mkConfirmationId (uuid : String) : String :=
  uuid.take 8

/-- Storing the resolver: `this.confirmations[confirmationId] = resolve`.
Assigning a key of a JavaScript record inserts it if absent and overwrites
the stored resolver if the key is already present, so on the id set this is
insert-if-absent. -/
def storeResolver (s : BrokerState) (id : String) : BrokerState :=
  { s with pending := if id ∈ s.pending then s.pending else id :: s.pending }

/-- `onPaymentRequired` (state effect): draw the confirmation id from the
given UUID, broadcast the `payment_required` event (no broker-state
effect), store the resolver and return the id.  The 60-second timer armed
here is modelled by `timeoutFire` below. -/
def onPaymentRequired (s : BrokerState) (uuid : String) : BrokerState × String :=
  let confirmationId := mkConfirmationId uuid
  (storeResolver s confirmationId, confirmationId)

/-- The `confirm` branch of `onMessage`:
`this.confirmations[id]?.(true)` fires the resolver with `true` only when
the key is present, then `delete this.confirmations[id]` removes the key
(deleting an absent key is a no-op). -/
def confirmMsg (s : BrokerState) (id : String) : BrokerState :=
  if id ∈ s.pending then
    { pending := s.pending.erase id, outcomes := s.outcomes ++ [(id, true)] }
  else s

/-- The `cancel` branch of `onMessage`: as `confirmMsg` but the resolver is
fired with `false`. -/
def cancelMsg (s : BrokerState) (id : String) : BrokerState :=
  if id ∈ s.pending then
    { pending := s.pending.erase id, outcomes := s.outcomes ++ [(id, false)] }
  else s

/-- The timeout callback armed by `onPaymentRequired`:
`if (this.confirmations[confirmationId])` guards deletion of the key and
`resolve(false)`; when the key is already gone the callback does nothing. -/
def timeoutFire (s : BrokerState) (id : String) : BrokerState :=
  if id ∈ s.pending then
    { pending := s.pending.erase id, outcomes := s.outcomes ++ [(id, false)] }
  else s

/-- Every resolution path removes the id from `pending`, so no duplicate
of it can remain when `pending` has no duplicate keys. -/
theorem confirmMsg_not_pending (s : BrokerState) (id : String)
    (hnd : s.pending.Nodup) : id ∉ (confirmMsg s id).pending := by
  unfold confirmMsg
  split
  · exact fun hmem => ((List.Nodup.mem_erase_iff hnd).mp hmem).1 rfl
  · next h => exact h

theorem cancelMsg_not_pending (s : BrokerState) (id : String)
    (hnd : s.pending.Nodup) : id ∉ (cancelMsg s id).pending := by
  unfold cancelMsg
  split
  · exact fun hmem => ((List.Nodup.mem_erase_iff hnd).mp hmem).1 rfl
  · next h => exact h

theorem timeoutFire_not_pending (s : BrokerState) (id : String)
    (hnd : s.pending.Nodup) : id ∉ (timeoutFire s id).pending := by
  unfold timeoutFire
  split
  · exact fun hmem => ((List.Nodup.mem_erase_iff hnd).mp hmem).1 rfl
  · next h => exact h

/-- When the id holds no resolver, every resolution path is the identity. -/
theorem confirmMsg_of_not_pending (s : BrokerState) (id : String)
    (h : id ∉ s.pending) : confirmMsg s id = s := by
  unfold confirmMsg; simp [h]

theorem cancelMsg_of_not_pending (s : BrokerState) (id : String)
    (h : id ∉ s.pending) : cancelMsg s id = s := by
  unfold cancelMsg; simp [h]

theorem timeoutFire_of_not_pending (s : BrokerState) (id : String)
    (h : id ∉ s.pending) : timeoutFire s id = s := by
  unfold timeoutFire; simp [h]

/-- Resolution paths preserve the no-duplicate-keys invariant. -/
theorem confirmMsg_nodup (s : BrokerState) (id : String)
    (hnd : s.pending.Nodup) : (confirmMsg s id).pending.Nodup := by
  unfold confirmMsg
  split
  · exact hnd.erase id
  · exact hnd

theorem cancelMsg_nodup (s : BrokerState) (id : String)
    (hnd : s.pending.Nodup) : (cancelMsg s id).pending.Nodup := by
  unfold cancelMsg
  split
  · exact hnd.erase id
  · exact hnd

theorem timeoutFire_nodup (s : BrokerState) (id : String)
    (hnd : s.pending.Nodup) : (timeoutFire s id).pending.Nodup := by
  unfold timeoutFire
  split
  · exact hnd.erase id
  · exact hnd

/-- C2: after a confirmation id has been resolved once (by confirm, cancel
or timeout), every second resolution attempt for the same id — by any of
the three paths — leaves the broker state unchanged: no resolver fires
again and the recorded outcomes do not change.  (All three paths are total
functions, so no attempt throws.) -/
theorem C2_second_resolution_noop (s : BrokerState) (id : String)
    (hnd : s.pending.Nodup) :
    (confirmMsg (confirmMsg s id) id = confirmMsg s id) ∧
    (cancelMsg (confirmMsg s id) id = confirmMsg s id) ∧
    (timeoutFire (confirmMsg s id) id = confirmMsg s id) ∧
    (confirmMsg (cancelMsg s id) id = cancelMsg s id) ∧
    (cancelMsg (cancelMsg s id) id = cancelMsg s id) ∧
    (timeoutFire (cancelMsg s id) id = cancelMsg s id) ∧
    (confirmMsg (timeoutFire s id) id = timeoutFire s id) ∧
    (cancelMsg (timeoutFire s id) id = timeoutFire s id) ∧
    (timeoutFire (timeoutFire s id) id = timeoutFire s id) :=
  ⟨confirmMsg_of_not_pending _ _ (confirmMsg_not_pending s id hnd),
   cancelMsg_of_not_pending _ _ (confirmMsg_not_pending s id hnd),
   timeoutFire_of_not_pending _ _ (confirmMsg_not_pending s id hnd),
   confirmMsg_of_not_pending _ _ (cancelMsg_not_pending s id hnd),
   cancelMsg_of_not_pending _ _ (cancelMsg_not_pending s id hnd),
   timeoutFire_of_not_pending _ _ (cancelMsg_not_pending s id hnd),
   confirmMsg_of_not_pending _ _ (timeoutFire_not_pending s id hnd),
   cancelMsg_of_not_pending _ _ (timeoutFire_not_pending s id hnd),
   timeoutFire_of_not_pending _ _ (timeoutFire_not_pending s id hnd)⟩

/-- Witness for C2 at a concrete broker state holding one pending id. -/
theorem C2_second_resolution_noop_witness :
    confirmMsg (confirmMsg ⟨["aa"], []⟩ "aa") "aa" = confirmMsg ⟨["aa"], []⟩ "aa" :=
  (C2_second_resolution_noop ⟨["aa"], []⟩ "aa" (by decide)).1

/-- The timeout callback and the `cancel` branch perform the same state
transition: both settle the pending resolver with `false` and remove it. -/
theorem timeoutFire_eq_cancelMsg (s : BrokerState) (id : String) :
    timeoutFire s id = cancelMsg s id := rfl

/-- C3: a confirmation still pending when its 60-second timer fires is
resolved to `false` exactly once — the timeout is the same transition as
`resolve(id, false)`, it appends the single outcome `(id, false)`, it
removes the resolver, and a second firing of the timer for the same id
changes nothing. -/
theorem C3_timeout_resolves_false_once (s : BrokerState) (id : String)
    (hnd : s.pending.Nodup) (hmem : id ∈ s.pending) :
    timeoutFire s id = cancelMsg s id ∧
    (timeoutFire s id).outcomes = s.outcomes ++ [(id, false)] ∧
    id ∉ (timeoutFire s id).pending ∧
    timeoutFire (timeoutFire s id) id = timeoutFire s id :=
  ⟨rfl,
   by unfold timeoutFire; simp [hmem],
   timeoutFire_not_pending s id hnd,
   timeoutFire_of_not_pending _ _ (timeoutFire_not_pending s id hnd)⟩

/-- Witness for C3 at a concrete broker state holding one pending id. -/
theorem C3_timeout_resolves_false_once_witness :
    timeoutFire ⟨["bb"], []⟩ "bb" = cancelMsg ⟨["bb"], []⟩ "bb" ∧
    (timeoutFire ⟨["bb"], []⟩ "bb").outcomes =
      (⟨["bb"], []⟩ : BrokerState).outcomes ++ [("bb", false)] ∧
    "bb" ∉ (timeoutFire ⟨["bb"], []⟩ "bb").pending ∧
    timeoutFire (timeoutFire ⟨["bb"], []⟩ "bb") "bb" = timeoutFire ⟨["bb"], []⟩ "bb" :=
  C3_timeout_resolves_false_once ⟨["bb"], []⟩ "bb" (by decide) (by decide)

/-- C4: a `confirm` or `cancel` message (and likewise a timer firing)
whose confirmationId holds no pending resolver leaves the broker state
untouched: nothing fires, no outcome is recorded, and — the handlers being
total functions — no error is raised. -/
theorem C4_unknown_id_silently_ignored (s : BrokerState) (id : String)
    (h : id ∉ s.pending) :
    confirmMsg s id = s ∧ cancelMsg s id = s ∧ timeoutFire s id = s :=
  ⟨confirmMsg_of_not_pending s id h,
   cancelMsg_of_not_pending s id h,
   timeoutFire_of_not_pending s id h⟩

/-- Witness for C4: resolving an id never registered, while another
confirmation is pending. -/
theorem C4_unknown_id_silently_ignored_witness :
    confirmMsg ⟨["cc"], [("old", true)]⟩ "zz" = ⟨["cc"], [("old", true)]⟩ ∧
    cancelMsg ⟨["cc"], [("old", true)]⟩ "zz" = ⟨["cc"], [("old", true)]⟩ ∧
    timeoutFire ⟨["cc"], [("old", true)]⟩ "zz" = ⟨["cc"], [("old", true)]⟩ :=
  C4_unknown_id_silently_ignored ⟨["cc"], [("old", true)]⟩ "zz" (by decide)

/-- Resolving one id keeps every other id pending. -/
theorem confirmMsg_pending_other (s : BrokerState) (id1 id2 : String)
    (hne : id2 ≠ id1) (h2 : id2 ∈ s.pending) :
    id2 ∈ (confirmMsg s id1).pending := by
  unfold confirmMsg
  split
  · exact (List.mem_erase_of_ne hne).mpr h2
  · exact h2

theorem cancelMsg_pending_other (s : BrokerState) (id1 id2 : String)
    (hne : id2 ≠ id1) (h2 : id2 ∈ s.pending) :
    id2 ∈ (cancelMsg s id1).pending := by
  unfold cancelMsg
  split
  · exact (List.mem_erase_of_ne hne).mpr h2
  · exact h2

/-- Resolving one id records no outcome for any other id. -/
theorem confirmMsg_outcomes_other (s : BrokerState) (id1 id2 : String)
    (hne : id1 ≠ id2) :
    ((confirmMsg s id1).outcomes.filter (fun o => o.1 == id2)) =
      s.outcomes.filter (fun o => o.1 == id2) := by
  unfold confirmMsg
  split
  · simp [List.filter_append, hne]
  · rfl

theorem cancelMsg_outcomes_other (s : BrokerState) (id1 id2 : String)
    (hne : id1 ≠ id2) :
    ((cancelMsg s id1).outcomes.filter (fun o => o.1 == id2)) =
      s.outcomes.filter (fun o => o.1 == id2) := by
  unfold cancelMsg
  split
  · simp [List.filter_append, hne]
  · rfl

/-- C5 counterexample: the confirmationId is only the first 8 characters
of the drawn UUID, so two invocations of `onPaymentRequired` whose random
draws differ but share an 8-character prefix produce the same
confirmationId — distinctness of the produced ids is not guaranteed by the
code. -/
theorem C5_distinct_ids_counterexample :
    (onPaymentRequired
        (onPaymentRequired (⟨[], []⟩ : BrokerState)
          "deadbeef-1111-4111-8111-111111111111").1
        "deadbeef-2222-4222-8222-222222222222").2 =
      (onPaymentRequired (⟨[], []⟩ : BrokerState)
        "deadbeef-1111-4111-8111-111111111111").2 := by decide

/-- C5 (amended): when the two produced confirmationIds are distinct, the
two pending confirmations are independently tracked — resolving either one
(confirm, cancel or timeout) keeps the other pending and records no
outcome for it. -/
theorem C5_distinct_ids_independent (s : BrokerState) (id1 id2 : String)
    (hne : id1 ≠ id2) (h2 : id2 ∈ s.pending) :
    (id2 ∈ (confirmMsg s id1).pending ∧
      ((confirmMsg s id1).outcomes.filter (fun o => o.1 == id2)) =
        s.outcomes.filter (fun o => o.1 == id2)) ∧
    (id2 ∈ (cancelMsg s id1).pending ∧
      ((cancelMsg s id1).outcomes.filter (fun o => o.1 == id2)) =
        s.outcomes.filter (fun o => o.1 == id2)) ∧
    (id2 ∈ (timeoutFire s id1).pending ∧
      ((timeoutFire s id1).outcomes.filter (fun o => o.1 == id2)) =
        s.outcomes.filter (fun o => o.1 == id2)) :=
  ⟨⟨confirmMsg_pending_other s id1 id2 (Ne.symm hne) h2,
    confirmMsg_outcomes_other s id1 id2 hne⟩,
   ⟨cancelMsg_pending_other s id1 id2 (Ne.symm hne) h2,
    cancelMsg_outcomes_other s id1 id2 hne⟩,
   ⟨cancelMsg_pending_other s id1 id2 (Ne.symm hne) h2,
    cancelMsg_outcomes_other s id1 id2 hne⟩⟩

/-- Witness for C5 (amended) with two distinct pending ids. -/
theorem C5_distinct_ids_independent_witness :
    "ee" ∈ (confirmMsg ⟨["dd", "ee"], []⟩ "dd").pending ∧
    ((confirmMsg ⟨["dd", "ee"], []⟩ "dd").outcomes.filter (fun o => o.1 == "ee")) =
      (⟨["dd", "ee"], []⟩ : BrokerState).outcomes.filter (fun o => o.1 == "ee") :=
  (C5_distinct_ids_independent ⟨["dd", "ee"], []⟩ "dd" "ee" (by decide) (by decide)).1

/-! ## WebSocket message dispatch (`CircularPayAgent.onMessage`)

The dispatcher is embedded as a pure function from the parse outcome of an
inbound frame to the successor broker state together with the list of
replies sent on the connection (`conn.send`).  The x402 client call and the
tool listing are asynchronous external calls; their outcomes are supplied
by an `AgentEnv`. -/

/-- Outcome of one MCP tool call as consumed by `onMessage`: the `isError`
flag of the `CallToolResult` and `result.content[0]?.text ?? ""`. -/
structure ToolCallResult where
  isError : Bool
  text : String
deriving DecidableEq

/-- The dispatcher's environment: whether `onStart` installed the x402
client (`CLIENT_WALLET_PK` present), and the outcomes of
`x402Client.callTool` and `x402Client.listTools` (`Except.error` is a
thrown exception, carrying the message string the catch block reports). -/
structure AgentEnv where
  initialized : Bool
  callToolOutcome : String → List (String × String) → Except String ToolCallResult
  listToolsOutcome : Except String (List String)

/-- Parse result of a string frame, by message `type`: the four recognized
types and `other` for an unrecognized `type` field. -/
inductive ParsedMsg where
  | confirm (confirmationId : String)
  | cancel (confirmationId : String)
  | callTool (tool : String) (args : List (String × String))
  | listToolsReq
  | other (ty : String)
deriving DecidableEq

/-- An inbound WebSocket frame: a text frame carries the outcome of
`JSON.parse` (`none` when parsing threw), a non-text frame is `nonString`. -/
inductive WSInbound where
  | text (parsed : Option ParsedMsg)
  | nonString
deriving DecidableEq

/-- A reply sent on the connection by `onMessage`. -/
inductive Reply where
  | errorReply (error : String)
  | toolResult (tool : String) (result : String)
  | toolError (tool : String) (result : String)
  | toolsList (tools : List String)
deriving DecidableEq

/-- `CircularPayAgent.onMessage`: non-string frames return immediately; a
parse failure is caught and answered with one error reply; `confirm` and
`cancel` resolve the broker and send nothing; `call_tool` and `list_tools`
send exactly one reply each (result, tool error, thrown-error message, or
the not-initialized error); an unrecognized type is logged and dropped. -/
def onMessage (env : AgentEnv) (s : BrokerState) (m : WSInbound) :
    BrokerState × List Reply :=
  match m with
  | .nonString => (s, [])
  | .text none => (s, [.errorReply "Failed to parse message"])
  | .text (some p) =>
    match p with
    | .confirm id => (confirmMsg s id, [])
    | .cancel id => (cancelMsg s id, [])
    | .callTool tool args =>
      if env.initialized then
        match env.callToolOutcome tool args with
        | .ok r =>
          (s, [if r.isError then .toolError tool r.text else .toolResult tool r.text])
        | .error e => (s, [.errorReply e])
      else
        (s, [.errorReply "Agent not initialized - missing CLIENT_WALLET_PK"])
    | .listToolsReq =>
      if env.initialized then
        match env.listToolsOutcome with
        | .ok ts => (s, [.toolsList ts])
        | .error e => (s, [.errorReply e])
      else
        (s, [.errorReply "Agent not initialized"])
    | .other _ => (s, [])

/-- C6 counterexample: a `confirm` message is one of the recognized request
types of the session protocol, yet its processing emits no reply at all —
so it is not true that every request other than an unrecognized type
receives exactly one terminal reply. -/
theorem C6_reply_counterexample :
    (onMessage ⟨true, fun _ _ => .ok ⟨false, ""⟩, .ok []⟩ ⟨["ff"], []⟩
        (.text (some (.confirm "ff")))).2 = [] := rfl

/-- C6 (amended): every `call_tool` or `list_tools` request and every
unparseable text frame receives exactly one reply; `confirm`, `cancel` and
unrecognized-type messages receive none (a confirm/cancel instead settles
the pending confirmation whose suspended `call_tool` emits the eventual
reply). -/
theorem C6_reply_discipline (env : AgentEnv) (s : BrokerState) :
    (∀ tool args, ((onMessage env s (.text (some (.callTool tool args)))).2).length = 1) ∧
    (((onMessage env s (.text (some .listToolsReq))).2).length = 1) ∧
    (((onMessage env s (.text none)).2).length = 1) ∧
    (∀ id, (onMessage env s (.text (some (.confirm id)))).2 = []) ∧
    (∀ id, (onMessage env s (.text (some (.cancel id)))).2 = []) ∧
    (∀ ty, (onMessage env s (.text (some (.other ty)))).2 = []) ∧
    ((onMessage env s .nonString).2 = []) := by
  refine ⟨fun tool args => ?_, ?_, rfl, fun _ => rfl, fun _ => rfl, fun _ => rfl, rfl⟩
  · unfold onMessage
    by_cases h : env.initialized
    · simp only [h, if_true]
      cases env.callToolOutcome tool args <;> simp
    · simp [h]
  · unfold onMessage
    by_cases h : env.initialized
    · simp only [h, if_true]
      cases env.listToolsOutcome <;> simp
    · simp [h]

/-- C8: an inbound text frame that is not parseable as JSON is answered by
exactly one reply, the error `"Failed to parse message"`; the broker state
is unchanged and every subsequent message is processed exactly as it would
have been before, so the session remains usable. -/
theorem C8_parse_failure_one_error_reply (env : AgentEnv) (s : BrokerState) :
    onMessage env s (.text none) = (s, [.errorReply "Failed to parse message"]) ∧
    (∀ m, onMessage env (onMessage env s (.text none)).1 m = onMessage env s m) :=
  ⟨rfl, fun _ => rfl⟩

/-- C10: a non-string frame is dropped before the try block: no reply is
sent (in particular no parse-failure error) and the broker state is
untouched. -/
theorem C10_non_string_frame_dropped (env : AgentEnv) (s : BrokerState) :
    onMessage env s .nonString = (s, []) := rfl

/-! ## Backend client (`CircularClient.checkWallet`) and the `check_wallet`
tool handler of `src/mcp-server.ts` -/

/-- The HTTP response seen by `checkWallet`: the `ok` flag, the status
text, and the optional `exists` field of the parsed JSON body (`none` when
the field is missing). -/
structure WalletHttpResponse where
  ok : Bool
  statusText : String
  walletExists : Option Bool
deriving DecidableEq

/-- Outcome of the `fetch` (plus body parsing) inside `checkWallet`:
either a response, or a thrown transport/parsing error with its message. -/
inductive FetchOutcome where
  | success (r : WalletHttpResponse)
  | failure (e : String)
deriving DecidableEq

/-- `CircularClient.checkWallet`: the whole body is wrapped in try/catch
returning `false` on any caught error; a non-ok response throws (and is
thus caught), and a missing `exists` field defaults to `false`
(`data.exists ?? false`). -/
def checkWallet (o : FetchOutcome) : Bool :=
  match o with
  | .failure _ => false
  | .success r => if r.ok then r.walletExists.getD false else false

/-- The result of the `check_wallet` tool handler: whether the result is
flagged as an error, and the reported existence bit. -/
structure CheckWalletReport where
  isError : Bool
  walletExists : Bool
deriving DecidableEq

/-- The `check_wallet` tool handler of `src/mcp-server.ts`: it awaits
`checkWallet` inside a try/catch whose catch branch would flag an error,
but `checkWallet` is itself total (its own try/catch returns `false`), so
the handler always reports `isError := false` with the returned bit. -/
def check_wallet_tool (o : FetchOutcome) : CheckWalletReport :=
  { isError := false, walletExists := checkWallet o }

/-- A backend error condition for the existence check: a thrown
transport/parsing error, a non-success HTTP response, or a body missing
the `exists` field. -/
def backendErrorCondition : FetchOutcome → Bool
  | .failure _ => true
  | .success r => !r.ok || r.walletExists.isNone

/-- C7: under every backend error condition `checkWallet` degrades to
`false` instead of propagating the error, and the `check_wallet` tool call
consequently reports existence `false` with no error outcome. -/
theorem C7_check_wallet_degrades_to_false (o : FetchOutcome)
    (h : backendErrorCondition o = true) :
    checkWallet o = false ∧ check_wallet_tool o = ⟨false, false⟩ := by
  have hc : checkWallet o = false := by
    cases o with
    | failure e => rfl
    | success r =>
      simp only [backendErrorCondition, Bool.or_eq_true, Bool.not_eq_true'] at h
      rcases h with h | h
      · simp [checkWallet, h]
      · simp [checkWallet, Option.isNone_iff_eq_none.mp h]
  exact ⟨hc, by simp [check_wallet_tool, hc]⟩

/-- Witness for C7 at a failed fetch. -/
theorem C7_check_wallet_degrades_to_false_witness :
    checkWallet (.failure "connection reset") = false ∧
    check_wallet_tool (.failure "connection reset") = ⟨false, false⟩ :=
  C7_check_wallet_degrades_to_false (.failure "connection reset") (by decide)

/-! ## The x402 payment gate

Modelled from the spec: the payment gate itself (`withX402` wrapping the
`McpServer` and the `paidTool` registration, both provided by the external
`agents/x402` dependency and only configured in `src/mcp-server.ts`) is not
part of this repository's sources.  Following the spec, `invoke` of a
descriptor whose price is absent executes the handler immediately; with a
price present it executes the handler only when a payment proof is present
and verifies against the facilitator oracle, and otherwise returns a
`payment_required` outcome carrying the PaymentRequirement built from the
declared price and the static x402 configuration.  The second component of
the result counts handler executions. -/

/-- A payment requirement: amount, network, recipient and facilitator
endpoint, produced per paid-tool invocation from static configuration. -/
structure PaymentRequirement where
  amount : ℚ
  network : String
  recipient : String
  facilitatorUrl : String
deriving DecidableEq

/-- The static x402 configuration assembled in `CircularMCP.init`. -/
structure X402Cfg where
  network : String
  recipient : String
  facilitatorUrl : String
deriving DecidableEq

/-- A registered tool as the gate sees it: the optional declared price and
the handler. -/
structure GateDescriptor (α β : Type) where
  price : Option ℚ
  handler : α → β

/-- Outcome of a gated invocation. -/
inductive GateOutcome (β : Type) where
  | result (value : β)
  | payment_required (requirements : List PaymentRequirement)

/-- Modelled from the spec: the gate's `invoke(descriptor, args,
paymentProof?)` decision, with the facilitator verification oracle
`verify` supplied as a function.  Returns the outcome and the number of
handler executions. -/
def invoke {α β : Type} (cfg : X402Cfg)
    (verify : String → PaymentRequirement → Bool)
    (d : GateDescriptor α β) (args : α) (pf? : Option String) :
    GateOutcome β × Nat :=
  match d.price with
  | none => (.result (d.handler args), 1)
  | some amount =>
    let req : PaymentRequirement :=
      ⟨amount, cfg.network, cfg.recipient, cfg.facilitatorUrl⟩
    match pf? with
    | none => (.payment_required [req], 0)
    | some pf =>
      if verify pf req then (.result (d.handler args), 1)
      else (.payment_required [req], 0)

/-- C1: a free tool's handler runs immediately, exactly once, and its
result is returned; a priced tool invoked with an absent or non-verifying
payment proof never runs its handler (execution count 0) and yields a
`payment_required` outcome carrying the requirement built from the
declared price. -/
theorem C1_gate_blocks_unpaid_runs_free {α β : Type} (cfg : X402Cfg)
    (verify : String → PaymentRequirement → Bool)
    (d : GateDescriptor α β) (args : α) (pf? : Option String) :
    (d.price = none →
      invoke cfg verify d args pf? = (.result (d.handler args), 1)) ∧
    (∀ amount, d.price = some amount →
      (∀ pf, pf? = some pf →
        verify pf ⟨amount, cfg.network, cfg.recipient, cfg.facilitatorUrl⟩ = false) →
      invoke cfg verify d args pf? =
        (.payment_required
          [⟨amount, cfg.network, cfg.recipient, cfg.facilitatorUrl⟩], 0)) := by
  constructor
  · intro hfree
    unfold invoke
    rw [hfree]
  · intro amount hp hbad
    unfold invoke
    rw [hp]
    cases pf? with
    | none => rfl
    | some pf => simp [hbad pf rfl]

/-- Witness for C1: the `get_wallet` price (0.001 USD) with no proof, and
a free descriptor, under a rejecting oracle. -/
theorem C1_gate_blocks_unpaid_runs_free_witness :
    invoke ⟨"base", "0xrecipient", "https://fac"⟩ (fun _ _ => false)
        (⟨none, fun n : Nat => n + 1⟩ : GateDescriptor Nat Nat) 4 none =
      (.result 5, 1) ∧
    invoke ⟨"base", "0xrecipient", "https://fac"⟩ (fun _ _ => false)
        (⟨some (1 / 1000), fun n : Nat => n + 1⟩ : GateDescriptor Nat Nat) 4 none =
      (.payment_required [⟨1 / 1000, "base", "0xrecipient", "https://fac"⟩], 0) :=
  ⟨(C1_gate_blocks_unpaid_runs_free ⟨"base", "0xrecipient", "https://fac"⟩
      (fun _ _ => false) ⟨none, fun n : Nat => n + 1⟩ 4 none).1 rfl,
   (C1_gate_blocks_unpaid_runs_free ⟨"base", "0xrecipient", "https://fac"⟩
      (fun _ _ => false) ⟨some (1 / 1000), fun n : Nat => n + 1⟩ 4 none).2
     (1 / 1000) rfl (fun pf h => by cases h)⟩

/-! ## Tool registry (`src/mcp-server.ts`) and pricing listing
(`src/index.ts`)

Prices are the USD amounts of the numeric literals passed to `paidTool`,
expressed in units of 1/10000 USD (the coarsest unit that expresses every
price literal of the source exactly); a free tool (registered with
`server.tool`) has no price. -/

/-- The tools registered in `CircularMCP.init`, in registration order,
with their declared prices: 0.001, 0.0005, 0.01, 0.005 and 0.002 USD, in
units of 1/10000 USD. -/
def registeredTools : List (String × Option Nat) :=
  [("check_wallet", none),
   ("get_wallet", some 10),
   ("get_balance", some 5),
   ("send_transaction", some 100),
   ("get_analytics", some 50),
   ("get_transaction_history", some 20)]

/-- The `tools` object of the `/pricing` endpoint of `src/index.ts`, in
source order, with its literal price strings. -/
def pricingTools : List (String × String) :=
  [("check_wallet", "free"),
   ("get_wallet", "$0.001"),
   ("get_balance", "$0.0005"),
   ("get_transaction_history", "$0.002"),
   ("get_analytics", "$0.005"),
   ("send_transaction", "$0.01")]

/-- Reads a digit sequence as a natural number, `none` on a non-digit. -/
def digitsToNat? (cs : List Char) : Option Nat :=
  cs.foldl
    (fun acc c =>
      match acc with
      | some n => if c.isDigit then some (10 * n + (c.toNat - 48)) else none
      | none => none)
    (some 0)

/-- Splits a character list at the first decimal point: the digits before
it, and — when a point occurs — the characters after it. -/
def splitAtPoint (cs : List Char) : List Char × Option (List Char) :=
  match cs with
  | [] => ([], none)
  | '.' :: rest => ([], some rest)
  | c :: rest =>
    let (w, f) := splitAtPoint rest
    (c :: w, f)

/-- Reads a price string of the listing: `"free"` denotes the absence of a
price, `"$w"` or `"$w.f"` (at most four fractional digits) the decimal USD
amount in units of 1/10000 USD; anything else fails. -/
def priceOfListing (s : String) : Option (Option Nat) :=
  if s = "free" then some none
  else
    match s.toList with
    | '$' :: rest =>
      match splitAtPoint rest with
      | (whole, none) => (digitsToNat? whole).map (fun w => some (w * 10000))
      | (whole, some frac) =>
        if frac.length ≤ 4 then
          match digitsToNat? whole, digitsToNat? frac with
          | some w, some f => some (some (w * 10000 + f * 10 ^ (4 - frac.length)))
          | _, _ => none
        else none
    | _ => none

/-- C9: the pricing listing and the tool registry agree — the listed names
are exactly the registered names, an entry reads `"free"` exactly when the
registered descriptor has no price, and every priced entry's dollar string
denotes exactly the price declared at registration. -/
theorem C9_pricing_matches_registry :
    (pricingTools.map Prod.fst).Perm (registeredTools.map Prod.fst) ∧
    (∀ p ∈ pricingTools, ∀ t ∈ registeredTools, p.1 = t.1 →
      priceOfListing p.2 = some t.2) ∧
    (∀ p ∈ pricingTools, ∀ t ∈ registeredTools, p.1 = t.1 →
      (p.2 = "free" ↔ t.2 = none)) := by
  refine ⟨by decide, by decide, by decide⟩

/-- Witness for C9 at the `get_wallet` entry: `$0.001` denotes 10 units of
1/10000 USD, the declared price. -/
theorem C9_pricing_matches_registry_witness :
    priceOfListing "$0.001" = some (some 10) :=
  C9_pricing_matches_registry.2.1 ("get_wallet", "$0.001") (by decide)
    ("get_wallet", some 10) (by decide) rfl

end X402Gated
